import Mathlib

/-!
Shallow embedding of `colossalai/tensor/colo_tensor.py` (class `ColoTensor`),
together with value-level models of the external collaborators the module
consumes (`TensorSpec`, `ComputePattern`, `ShardPattern`, the exact-division
helper, the process-group registry and the split/gather collective), which are
code of this repository that is not part of the studied source file and are
therefore modelled from the specification's description of their interfaces.

Python exceptions are modelled with `Except (Err × ColoTensor) ColoTensor`:
an error carries the state of the object at the moment the exception is
raised (Python keeps any mutations already performed).  Machine tensors are
modelled as row-major flat integer lists together with a shape.
-/

set_option linter.unusedVariables false

/-- Compute patterns of the layout descriptors.  Modelled from the spec:
the enumeration (`colossalai/tensor`, not part of the studied source file)
must contain at least the four 1-D tensor-parallel symbols referenced by
`ColoTensor.shard`, a `DP` (data-parallel) pattern used by `gather`, and
possibly further patterns (represented here by `ZeRO`). -/
inductive ComputePattern where
  | TP1DRow_Linear
  | TP1DCol_Linear
  | TP1DRow_Embedding
  | TP1DCol_Embedding
  | ZeRO
  | DP
  deriving DecidableEq

/-- Shard patterns: not-applicable, row-sharded, column-sharded. -/
inductive ShardPattern where
  | NA
  | Row
  | Col
  deriving DecidableEq

/-- `TensorType` from the source: MODEL parameters vs NONMODEL (activations). -/
inductive TensorType where
  | MODEL
  | NONMODEL
  deriving DecidableEq

/-- Modelled from the spec: an action descriptor of a layout spec, with fields
`compute_pattern` and `parallel_mode` (the process-subgroup identifier,
modelled as an opaque natural number). -/
structure ParallelAction where
  compute_pattern : ComputePattern
  parallel_mode : Nat
  deriving DecidableEq

/-- Modelled from the spec: the layout-spec type (`TensorSpec`, not part of the
studied source file): a declarative list of partition actions keyed by compute
pattern; default construction yields zero actions. -/
structure TensorSpec where
  parallel_action_list : List ParallelAction
  deriving DecidableEq

/-- Number of declared partition actions. -/
def TensorSpec.num_action (s : TensorSpec) : Nat :=
  s.parallel_action_list.length

/-- Compute patterns of the declared actions, in declaration order. -/
def TensorSpec.compute_patterns (s : TensorSpec) : List ComputePattern :=
  s.parallel_action_list.map (fun a => a.compute_pattern)

/-- Modelled from the spec: look up the declared action keyed by the given
compute pattern; `none` when no declared action carries that pattern. -/
def TensorSpec.get_action_by_compute_pattern (s : TensorSpec) (cp : ComputePattern) :
    Option ParallelAction :=
  s.parallel_action_list.find? (fun a => decide (a.compute_pattern = cp))

/-- Value-level model of a native torch tensor: row-major flattened data with
a shape, plus the allocation/autograd parameters the source reads. -/
structure TTensor where
  shape : List Nat
  data : List Int
  requires_grad : Bool
  dtype : Option Nat
  device : Option Nat
  pin_memory : Bool
  deriving DecidableEq

/-- Number of elements, as the product of the shape. -/
def TTensor.numel (t : TTensor) : Nat := t.shape.prod

/-- The canonical empty placeholder `torch.empty(0)`. -/
def torchEmptyZero : TTensor :=
  { shape := [0], data := [], requires_grad := false,
    dtype := none, device := none, pin_memory := false }

/-- Model of `torch.empty(*size, dtype=, pin_memory=, requires_grad=, device=)`:
a fresh buffer with the declared parameters (contents arbitrary, fixed to 0). -/
def torchEmpty (size : List Nat) (dtype : Option Nat) (pin_memory : Bool)
    (requires_grad : Bool) (device : Option Nat) : TTensor :=
  { shape := size, data := List.replicate size.prod 0,
    requires_grad := requires_grad, dtype := dtype, device := device,
    pin_memory := pin_memory }

/-- Python-style dimension normalization: a negative index counts from the
end (`-1` is the last dimension). -/
def normDim (dim : Int) (rank : Nat) : Int :=
  if dim < 0 then dim + rank else dim

/-- Model of `torch.Tensor.narrow(dim, start, length)` on the row-major
encoding: the slice `[start, start+length)` along dimension `dim`; `none`
when the dimension is out of range or the slice exceeds the extent. -/
def TTensor.narrow (t : TTensor) (dim : Int) (start len : Nat) : Option TTensor :=
  let n := t.shape.length
  let d := normDim dim n
  if 0 ≤ d ∧ d.toNat < n then
    let dn := d.toNat
    let extent := t.shape.getD dn 0
    if start + len ≤ extent then
      let inner := (t.shape.drop (dn + 1)).prod
      let outer := (t.shape.take dn).prod
      some { t with
        shape := t.shape.set dn len,
        data := ((List.range outer).map (fun i =>
          ((t.data.drop (i * (extent * inner) + start * inner)).take (len * inner)))).flatten }
    else none
  else none

/-- Model of `torch.Tensor.detach()`: same value, cut out of the autograd
graph (the flag is cleared). -/
def TTensor.detach (t : TTensor) : TTensor := { t with requires_grad := false }

/-- Model of `torch.Tensor.contiguous()`: at value level, the identity. -/
def TTensor.contiguous (t : TTensor) : TTensor := t

/-- Concatenation of a non-empty list of tensors along a dimension, on the
row-major encoding; all shapes must agree outside the concatenation
dimension.  Used to model the forward pass of the gather collective. -/
def TTensor.cat (ts : List TTensor) (dim : Int) : Option TTensor :=
  match ts with
  | [] => none
  | t0 :: _ =>
    let n := t0.shape.length
    let d := normDim dim n
    if 0 ≤ d ∧ d.toNat < n then
      let dn := d.toNat
      if ts.all (fun u => decide (u.shape.length = n) &&
          decide (u.shape.take dn = t0.shape.take dn) &&
          decide (u.shape.drop (dn + 1) = t0.shape.drop (dn + 1))) then
        let inner := (t0.shape.drop (dn + 1)).prod
        let outer := (t0.shape.take dn).prod
        some { t0 with
          shape := t0.shape.set dn (ts.map (fun u => u.shape.getD dn 0)).sum,
          data := ((List.range outer).map (fun i =>
            (ts.map (fun u =>
              ((u.data.drop (i * (u.shape.getD dn 0 * inner))).take
                (u.shape.getD dn 0 * inner)))).flatten)).flatten }
      else none
    else none

/-- Python error classes relevant to the module. -/
inductive Err where
  | assertionError (msg : String)
  | notImplementedError
  | attributeError
  | divisionError
  | indexError
  | runtimeError
  | typeError
  deriving DecidableEq

/-- Modelled from the spec: the integer exact-division helper
(`colossalai.nn.layer.utils.divide`, not part of the studied source file):
divides the numerator by the denominator and fails when the division is not
exact (or the denominator is zero). -/
def divide (numerator denominator : Nat) : Except Err Nat :=
  if denominator ≠ 0 ∧ numerator % denominator = 0 then
    Except.ok (numerator / denominator)
  else
    Except.error Err.divisionError

/-- Python sequence indexing with an (possibly negative) integer index. -/
def pyGetNat (l : List Nat) (i : Int) : Except Err Nat :=
  let j := normDim i l.length
  if 0 ≤ j ∧ j.toNat < l.length then Except.ok (l.getD j.toNat 0)
  else Except.error Err.indexError

/-- Modelled from the spec: the process-group registry
(`colossalai.core.global_context`, not part of the studied source file),
answering world-size and local-rank queries per parallel mode. -/
structure Gpc where
  get_world_size : Nat → Nat
  get_local_rank : Nat → Nat

/-- A registry in which every mode has world size `w` and local rank `r`. -/
def mkGpc (w r : Nat) : Gpc :=
  { get_world_size := fun _ => w, get_local_rank := fun _ => r }

/-- The ambient distributed state used by the gather collective: for each
parallel mode, the rank-ordered list of the local tensors held by the ranks
of that mode's process group. -/
def DistEnv : Type := Nat → List TTensor

/-- Modelled from the spec: the forward pass of
`gather_forward_split_backward(input, parallel_mode, dim)`
(`colossalai.nn.layer.parallel_1d._utils`, not part of the studied source
file): concatenates the rank-ordered shards of the group along `dim`.
The local input tensor is the caller's entry of the rank-ordered list. -/
def gather_forward_split_backward (input_ : TTensor) (locals_ : List TTensor)
    (dim : Int) : Option TTensor :=
  TTensor.cat locals_ dim

/-- The wrapped-tensor state, mirroring the attributes set by
`ColoTensor.__init__`. -/
structure ColoTensor where
  _size : List Nat
  _dtype : Option Nat
  _requires_grad : Bool
  _pin_memory : Bool
  _device : Option Nat
  _torch_tensor : TTensor
  _shard_spec : Option TensorSpec
  _shard_pattern : ShardPattern
  _type : TensorType
  deriving DecidableEq

/-- `ColoTensor.__init__`: stores the parameters, always starts with shard
pattern `NA`, and categorizes by the `is_model_data` flag. -/
def ColoTensor.init (size : List Nat) (dtype : Option Nat) (requires_grad : Bool)
    (pin_memory : Bool) (device : Option Nat) (torch_tensor : TTensor)
    (shard_spec : Option TensorSpec) (is_model_data : Bool) : ColoTensor :=
  { _size := size, _dtype := dtype, _requires_grad := requires_grad,
    _pin_memory := pin_memory, _device := device, _torch_tensor := torch_tensor,
    _shard_spec := shard_spec, _shard_pattern := ShardPattern.NA,
    _type := if is_model_data then TensorType.MODEL else TensorType.NONMODEL }

/-- `ColoTensor.init_from_torch_tensor`: wraps an existing native tensor,
copying its parameters; the layout spec is the default `TensorSpec()` with
zero actions. -/
def ColoTensor.init_from_torch_tensor (tensor : TTensor) (save_payload : Bool)
    (is_model_data : Bool) : ColoTensor :=
  ColoTensor.init tensor.shape tensor.dtype tensor.requires_grad
    tensor.pin_memory tensor.device
    (if save_payload then tensor else torchEmptyZero)
    (some { parallel_action_list := [] }) is_model_data

/-- `ColoTensor.is_gathered`. -/
def ColoTensor.is_gathered (self : ColoTensor) : Bool :=
  self._shard_pattern = ShardPattern.NA

/-- `ColoTensor.is_activation`. -/
def ColoTensor.is_activation (self : ColoTensor) : Bool :=
  self._type = TensorType.NONMODEL

/-- `ColoTensor.has_spec`. -/
def ColoTensor.has_spec (self : ColoTensor) : Bool :=
  self._shard_spec.isSome && decide (0 < (self._shard_spec.getD { parallel_action_list := [] }).num_action)

/-- `ColoTensor.set_shard_pattern`. -/
def ColoTensor.set_shard_pattern (self : ColoTensor) (p : ShardPattern) : ColoTensor :=
  { self with _shard_pattern := p }

/-- `ColoTensor.torch_tensor`: lazy materialization.  Returns the storage,
allocating it first (with the declared size/dtype/pinning/requires-grad/device)
when the current storage has zero elements; the second component is the
updated object. -/
def ColoTensor.torch_tensor (self : ColoTensor) : TTensor × ColoTensor :=
  if self._torch_tensor.numel = 0 then
    let t := torchEmpty self._size self._dtype self._pin_memory
      self._requires_grad self._device
    (t, { self with _torch_tensor := t })
  else
    (self._torch_tensor, self)

/-- `ColoTensor._shard_1d`: computes the chunk size by exact division of the
logical extent along `dim` by the world size, replaces the storage by the
detached contiguous local slice with the requires-grad flag re-attached, and
updates the logical size to the new storage shape. -/
def ColoTensor._shard_1d (self : ColoTensor) (gpc : Gpc)
    (parallel_action : ParallelAction) (dim : Int) :
    Except (Err × ColoTensor) ColoTensor :=
  let num_partition := gpc.get_world_size parallel_action.parallel_mode
  let local_rank := gpc.get_local_rank parallel_action.parallel_mode
  match pyGetNat self._size dim with
  | Except.error e => Except.error (e, self)
  | Except.ok extent =>
    match divide extent num_partition with
    | Except.error e => Except.error (e, self)
    | Except.ok chunk_size =>
      match self._torch_tensor.narrow dim (local_rank * chunk_size) chunk_size with
      | none => Except.error (Err.indexError, self)
      | some sliced =>
        let detached := sliced.detach.contiguous
        let new_tensor := { detached with requires_grad := self._requires_grad }
        Except.ok { self with _torch_tensor := new_tensor, _size := new_tensor.shape }

/-- `ColoTensor.gather`: asserts the tensor is an activation and is sharded,
looks up the Data-Parallel action of the layout spec (a missing action makes
the subsequent attribute access fail), invokes the gather collective along
dimension 0 (row-sharded) or the last dimension (column-sharded), resets the
pattern to `NA` and updates the logical size. -/
def ColoTensor.gather (self : ColoTensor) (env : DistEnv) :
    Except (Err × ColoTensor) ColoTensor :=
  if self.is_activation = false then
    Except.error (Err.assertionError "Currently we only support gather Activation ColoTensor.", self)
  else if self.is_gathered = true then
    Except.error (Err.assertionError "Only sharded ColoTensor can be gathered.", self)
  else
    match self._shard_spec with
    | none => Except.error (Err.attributeError, self)
    | some spec =>
      match spec.get_action_by_compute_pattern ComputePattern.DP with
      | none => Except.error (Err.attributeError, self)
      | some parallel_action =>
        let dim : Int := if self._shard_pattern = ShardPattern.Row then 0 else -1
        match gather_forward_split_backward self._torch_tensor
            (env parallel_action.parallel_mode) dim with
        | none => Except.error (Err.runtimeError, self)
        | some gathered =>
          Except.ok { self with
            _torch_tensor := gathered,
            _shard_pattern := ShardPattern.NA,
            _size := gathered.shape }

/-- `ColoTensor.shard`: asserts a spec is present, gathers first when already
sharded, and only when the spec declares exactly one action dispatches on its
compute pattern (last dimension and `Col` for `TP1DRow_Linear` or
`TP1DCol_Embedding`; dimension 0 and `Row` for `TP1DCol_Linear` or
`TP1DRow_Embedding`; otherwise `NotImplementedError`).  With a number of
actions other than one the method returns with no further effect. -/
def ColoTensor.shard (self : ColoTensor) (gpc : Gpc) (env : DistEnv) :
    Except (Err × ColoTensor) ColoTensor :=
  match self._shard_spec with
  | none => Except.error (Err.assertionError "You should call set_spec() before _shard() ColoTensor.", self)
  | some _ =>
    match (if self._shard_pattern ≠ ShardPattern.NA then self.gather env else Except.ok self) with
    | Except.error e => Except.error e
    | Except.ok s1 =>
      match s1._shard_spec with
      | none => Except.error (Err.attributeError, s1)
      | some spec =>
        if spec.num_action = 1 then
          match spec.compute_patterns with
          | [] => Except.error (Err.indexError, s1)
          | cp0 :: _ =>
            match spec.get_action_by_compute_pattern cp0 with
            | none => Except.error (Err.attributeError, s1)
            | some parallel_action =>
              if parallel_action.compute_pattern = ComputePattern.TP1DRow_Linear ∨
                  parallel_action.compute_pattern = ComputePattern.TP1DCol_Embedding then
                match s1._shard_1d gpc parallel_action (-1) with
                | Except.error e => Except.error e
                | Except.ok s2 => Except.ok { s2 with _shard_pattern := ShardPattern.Col }
              else if parallel_action.compute_pattern = ComputePattern.TP1DCol_Linear ∨
                  parallel_action.compute_pattern = ComputePattern.TP1DRow_Embedding then
                match s1._shard_1d gpc parallel_action 0 with
                | Except.error e => Except.error e
                | Except.ok s2 => Except.ok { s2 with _shard_pattern := ShardPattern.Row }
              else
                Except.error (Err.notImplementedError, s1)
        else
          Except.ok s1

/-- `ColoTensor.set_spec(spec, shard)`: stores the new layout spec and, when
`shard` is true, immediately invokes the shard operation. -/
def ColoTensor.set_spec (self : ColoTensor) (spec : TensorSpec) (sh : Bool)
    (gpc : Gpc) (env : DistEnv) : Except (Err × ColoTensor) ColoTensor :=
  let s := { self with _shard_spec := some spec }
  if sh = true then ColoTensor.shard s gpc env else Except.ok s

/-- Python values crossing the dispatch interceptor: `None`, native tensors,
wrapped tensors, tuples of results, and opaque non-tensor objects. -/
inductive PyVal where
  | none
  | tensor (t : TTensor)
  | colo (c : ColoTensor)
  | tuple (items : List PyVal)
  | obj (n : Nat)

/-- Whether a value is a wrapped tensor (`isinstance(v, ColoTensor)`). -/
def PyVal.isColo : PyVal → Bool
  | PyVal.colo _ => true
  | _ => false

/-- Unwrapping step of the interceptor: a wrapped tensor is replaced by its
(lazily materialized) native storage, everything else is left unchanged. -/
def PyVal.unwrapArg : PyVal → PyVal
  | PyVal.colo c => PyVal.tensor (ColoTensor.torch_tensor c).fst
  | v => v

/-- `ColoTensor._filter_outputs_with_colo`: `None` stays `None`; a non-tuple
result is wrapped exactly when it is a native tensor; a tuple is re-wrapped
element-wise in order. -/
def ColoTensor._filter_outputs_with_colo (outputs : PyVal) : PyVal :=
  match outputs with
  | PyVal.none => PyVal.none
  | PyVal.tuple items =>
    PyVal.tuple (items.map (fun o =>
      match o with
      | PyVal.tensor t => PyVal.colo (ColoTensor.init_from_torch_tensor t true false)
      | _ => o))
  | PyVal.tensor t => PyVal.colo (ColoTensor.init_from_torch_tensor t true false)
  | v => v

/-- A registered custom implementation: receives the original arguments and
keyword arguments (the latter possibly absent, as in the source). -/
def OpHandler : Type := List PyVal → Option (List (String × PyVal)) → PyVal

/-- `ColoTensor.__torch_function__`: when the operation (identified by an
opaque number) has a registered custom implementation, it is invoked on the
original arguments as soon as a wrapped tensor is found among the positional
arguments, then among the keyword-argument values (iterating keyword values
of an absent dictionary is an error; finding no wrapped tensor at all falls
through returning `None`).  Otherwise every wrapped tensor among the
positional and keyword arguments is unwrapped, the native operation is
invoked, and the result is re-wrapped by `_filter_outputs_with_colo`. -/
def ColoTensor.torch_function (colossal_ops : List (Nat × OpHandler)) (func : Nat)
    (nativeFn : List PyVal → List (String × PyVal) → PyVal)
    (args : List PyVal) (kwargs : Option (List (String × PyVal))) :
    Except Err PyVal :=
  match colossal_ops.find? (fun p => decide (p.fst = func)) with
  | some entry =>
    if args.any PyVal.isColo then
      Except.ok (entry.snd args kwargs)
    else
      match kwargs with
      | none => Except.error Err.attributeError
      | some kws =>
        if (kws.map Prod.snd).any PyVal.isColo then
          Except.ok (entry.snd args kwargs)
        else
          Except.ok PyVal.none
  | none =>
    let args2 := args.map PyVal.unwrapArg
    let kws := match kwargs with
      | none => []
      | some k => k
    let kws2 := kws.map (fun p => (p.fst, PyVal.unwrapArg p.snd))
    Except.ok (ColoTensor._filter_outputs_with_colo (nativeFn args2 kws2))

/-- Model of integer indexing `t[key]` on a native tensor: selects the
sub-tensor at index `key` along the first dimension. -/
def TTensor.getIdx (t : TTensor) (key : Nat) : Option TTensor :=
  match h : t.shape with
  | [] => none
  | e :: rest =>
    if key < e then
      some { t with
        shape := rest,
        data := (t.data.drop (key * rest.prod)).take rest.prod }
    else none

/-- `ColoTensor.__getitem__`: native indexing on the materialized storage,
re-wrapped through `init_from_torch_tensor`. -/
def ColoTensor.getitem (self : ColoTensor) (key : Nat) :
    Except Err ColoTensor :=
  match (ColoTensor.torch_tensor self).fst.getIdx key with
  | none => Except.error Err.indexError
  | some r => Except.ok (ColoTensor.init_from_torch_tensor r true false)

/-- Elementwise addition of native tensors (defined on equal shapes). -/
def TTensor.add (a b : TTensor) : Option TTensor :=
  if a.shape = b.shape then
    some { a with data := List.zipWith (fun x y => x + y) a.data b.data }
  else none

/-- Elementwise division of a native tensor by an integer scalar. -/
def TTensor.divScalar (a : TTensor) (s : Int) : TTensor :=
  { a with data := a.data.map (fun x => x / s) }

/-- `ColoTensor.__add__`: a wrapped-tensor or native-tensor operand is
combined with the materialized storage and the result re-wrapped; any other
operand type raises a `TypeError`. -/
def ColoTensor.add (self : ColoTensor) (o : PyVal) : Except Err ColoTensor :=
  match o with
  | PyVal.colo c =>
    match TTensor.add (ColoTensor.torch_tensor self).fst (ColoTensor.torch_tensor c).fst with
    | some r => Except.ok (ColoTensor.init_from_torch_tensor r true false)
    | none => Except.error Err.runtimeError
  | PyVal.tensor t =>
    match TTensor.add (ColoTensor.torch_tensor self).fst t with
    | some r => Except.ok (ColoTensor.init_from_torch_tensor r true false)
    | none => Except.error Err.runtimeError
  | _ => Except.error Err.typeError

/-- `ColoTensor.__truediv__`: divides the materialized storage by the operand
and re-wraps the result. -/
def ColoTensor.truediv (self : ColoTensor) (o : Int) : ColoTensor :=
  ColoTensor.init_from_torch_tensor
    ((ColoTensor.torch_tensor self).fst.divScalar o) true false

/-! Toolkit lemmas about lists and the row-major encoding. -/

theorem take_set_eq (s : List Nat) : ∀ (d v : Nat), (s.set d v).take d = s.take d := by
  induction s with
  | nil => intro d v; cases d <;> simp
  | cons a l ih =>
    intro d v
    cases d with
    | zero => simp
    | succ d => simp [List.set_cons_succ, List.take_succ_cons, ih]

theorem drop_set_eq (s : List Nat) : ∀ (d v : Nat), (s.set d v).drop (d + 1) = s.drop (d + 1) := by
  induction s with
  | nil => intro d v; simp
  | cons a l ih =>
    intro d v
    cases d with
    | zero => simp
    | succ d => simpa [List.set_cons_succ] using ih d v

theorem getD_set_self (s : List Nat) : ∀ (d v : Nat), d < s.length → (s.set d v).getD d 0 = v := by
  induction s with
  | nil => intro d v h; simp at h
  | cons a l ih =>
    intro d v h
    cases d with
    | zero => simp
    | succ d =>
      simp only [List.set_cons_succ, List.getD_cons_succ]
      exact ih d v (by simpa using h)

theorem set_getD_self (s : List Nat) : ∀ (d : Nat), d < s.length → s.set d (s.getD d 0) = s := by
  induction s with
  | nil => intro d h; simp at h
  | cons a l ih =>
    intro d h
    cases d with
    | zero => simp
    | succ d =>
      simp only [List.getD_cons_succ, List.set_cons_succ]
      rw [ih d (by simpa using h)]

theorem drop_eq_getD_cons (s : List Nat) : ∀ (d : Nat), d < s.length → s.drop d = s.getD d 0 :: s.drop (d + 1) := by
  induction s with
  | nil => intro d h; simp at h
  | cons a l ih =>
    intro d h
    cases d with
    | zero => simp
    | succ d =>
      simp only [List.drop_succ_cons, List.getD_cons_succ]
      exact ih d (by simpa using h)

theorem prod_split (s : List Nat) (d : Nat) (h : d < s.length) :
    s.prod = (s.take d).prod * (s.getD d 0 * (s.drop (d + 1)).prod) := by
  conv_lhs => rw [← List.take_append_drop d s]
  rw [List.prod_append, drop_eq_getD_cons s d h, List.prod_cons]

theorem flatten_slices (L : List Int) (B : Nat) : ∀ (w off : Nat),
    ((List.range w).map (fun k => (L.drop (off + k * B)).take B)).flatten =
      (L.drop off).take (w * B) := by
  intro w
  induction w with
  | zero => intro off; simp
  | succ w ih =>
    intro off
    have hshift : ∀ k : Nat, off + (k + 1) * B = (off + B) + k * B := by
      intro k
      have : (k + 1) * B = k * B + B := Nat.succ_mul k B
      omega
    rw [List.range_succ_eq_map, List.map_cons, List.map_map]
    have hmapeq : ((List.range w).map ((fun k => (L.drop (off + k * B)).take B) ∘ Nat.succ)) =
        ((List.range w).map (fun k => (L.drop ((off + B) + k * B)).take B)) := by
      apply List.map_congr_left
      intro k hk
      simp only [Function.comp]
      rw [hshift k]
    rw [List.flatten_cons, hmapeq, ih (off + B)]
    have hWB : (w + 1) * B = B + w * B := by
      have : (w + 1) * B = w * B + B := Nat.succ_mul w B
      omega
    rw [hWB, List.take_add, Nat.zero_mul, Nat.add_zero, List.drop_drop]

theorem flatten_block (ls : List (List Int)) (B : Nat) (h : ∀ l ∈ ls, l.length = B) :
    ∀ (i : Nat), i < ls.length → ((ls.flatten.drop (i * B)).take B) = ls.getD i [] := by
  induction ls with
  | nil => intro i hi; simp at hi
  | cons l ls ih =>
    intro i hi
    have hl : l.length = B := h l (List.mem_cons_self l ls)
    cases i with
    | zero =>
      simp only [Nat.zero_mul, List.drop_zero, List.flatten_cons, List.getD_cons_zero]
      rw [List.take_append_eq_append_take, ← hl, List.take_length, Nat.sub_self, List.take_zero,
        List.append_nil]
    | succ i =>
      have harith : (i + 1) * B = B + i * B := by
        have : (i + 1) * B = i * B + B := Nat.succ_mul i B
        omega
      simp only [List.flatten_cons, List.getD_cons_succ, harith]
      rw [← List.drop_drop, List.drop_append_eq_append_drop, hl, Nat.sub_self, List.drop_zero]
      rw [List.drop_eq_nil_of_le (le_of_eq hl), List.nil_append]
      exact ih (fun x hx => h x (List.mem_cons_of_mem l hx)) i (by simpa using hi)

theorem getD_range_map (f : Nat → List Int) (O i : Nat) (h : i < O) :
    ((List.range O).map f).getD i [] = f i := by
  rw [List.getD_eq_getElem?_getD, List.getElem?_map, List.getElem?_range h]
  rfl

/-! Evaluation lemmas for `narrow` and `cat` on rank shards. -/

theorem normDim_coe (d n : Nat) : normDim (d : Int) n = (d : Int) := by
  unfold normDim
  rw [if_neg (by omega)]

theorem normDim_neg_one (n : Nat) (h : 1 ≤ n) : normDim (-1) n = ((n - 1 : Nat) : Int) := by
  unfold normDim
  rw [if_pos (by norm_num)]
  omega

/-- The expected local shard of `t` at rank `k`: the slice
`[k*c, (k+1)*c)` along dimension `d`, written out on the row-major
encoding exactly as `TTensor.narrow` produces it. -/
def shardChunk (t : TTensor) (d c k : Nat) : TTensor :=
  { t with
    shape := t.shape.set d c,
    data := ((List.range ((t.shape.take d).prod)).map (fun i =>
      ((t.data.drop (i * (t.shape.getD d 0 * (t.shape.drop (d + 1)).prod) +
        (k * c) * (t.shape.drop (d + 1)).prod)).take
          (c * (t.shape.drop (d + 1)).prod)))).flatten }

theorem narrow_dim_congr (t : TTensor) (dim dim' : Int) (start len : Nat)
    (h : normDim dim t.shape.length = normDim dim' t.shape.length) :
    t.narrow dim start len = t.narrow dim' start len := by
  simp only [TTensor.narrow]
  rw [h]

theorem normDim_zero (n : Nat) : normDim 0 n = ((0 : Nat) : Int) := by
  unfold normDim
  simp

theorem narrow_eq_shardChunk (t : TTensor) (dim : Int) (d c k : Nat)
    (hdim : normDim dim t.shape.length = (d : Int))
    (hd : d < t.shape.length)
    (hkc : k * c + c ≤ t.shape.getD d 0) :
    t.narrow dim (k * c) c = some (shardChunk t d c k) := by
  simp only [TTensor.narrow, hdim, Int.toNat_natCast]
  rw [if_pos ⟨by omega, hd⟩]
  rw [if_pos hkc]
  rfl

theorem sum_range_const (w c : Nat) : ((List.range w).map (fun _ => c)).sum = w * c := by
  simp [List.sum_replicate, List.map_const]

theorem cat_shardChunks (t : TTensor) (dim : Int) (d w c : Nat) (hw : 0 < w)
    (hdim : normDim dim t.shape.length = (d : Int))
    (hd : d < t.shape.length)
    (hlen : t.data.length = t.shape.prod)
    (hE : t.shape.getD d 0 = w * c) :
    TTensor.cat ((List.range w).map (fun k => shardChunk t d c k)) dim = some t := by
  obtain ⟨w', rfl⟩ : ∃ w', w = w' + 1 := ⟨w - 1, by omega⟩
  have hlist : (List.range (w' + 1)).map (fun k => shardChunk t d c k) =
      shardChunk t d c 0 :: (List.range w').map ((fun k => shardChunk t d c k) ∘ Nat.succ) := by
    rw [List.range_succ_eq_map, List.map_cons, List.map_map]
  rw [hlist]
  simp only [TTensor.cat]
  rw [← hlist]
  have hsc_shape : ∀ k : Nat, (shardChunk t d c k).shape = t.shape.set d c := fun k => rfl
  simp only [hsc_shape, List.length_set, hdim, Int.toNat_natCast]
  rw [if_pos ⟨by omega, hd⟩]
  rw [take_set_eq, drop_set_eq]
  have hall : ((List.map (fun k => shardChunk t d c k) (List.range (w' + 1))).all fun u =>
      decide (u.shape.length = t.shape.length) && decide (List.take d u.shape = List.take d t.shape) &&
        decide (List.drop (d + 1) u.shape = List.drop (d + 1) t.shape)) = true := by
    rw [List.all_eq_true]
    intro u hu
    obtain ⟨k, hk, rfl⟩ := List.mem_map.mp hu
    simp [hsc_shape k, take_set_eq, drop_set_eq, List.length_set]
  rw [hall]
  rw [if_pos rfl]
  refine congrArg some ?_
  have hgetD_map : (List.map (fun u => u.shape.getD d 0)
      (List.map (fun k => shardChunk t d c k) (List.range (w' + 1)))) =
      (List.range (w' + 1)).map (fun _ => c) := by
    rw [List.map_map]
    apply List.map_congr_left
    intro k hk
    simp only [Function.comp]
    rw [hsc_shape k]
    exact getD_set_self t.shape d c hd
  rw [hgetD_map, sum_range_const, List.set_set, ← hE, set_getD_self t.shape d hd]
  set I := (List.drop (d + 1) t.shape).prod with hI
  set O := (List.take d t.shape).prod with hO
  set E := t.shape.getD d 0 with hEd
  have hblock : ∀ i k : Nat, i < O → k < w' + 1 →
      List.take (c * I) (List.drop (i * (c * I)) (shardChunk t d c k).data) =
      List.take (c * I) (List.drop (i * (E * I) + k * c * I) t.data) := by
    intro i k hi hk
    have hdataF : (shardChunk t d c k).data =
        ((List.range O).map (fun j =>
          List.take (c * I) (List.drop (j * (E * I) + k * c * I) t.data))).flatten := rfl
    have hlens : ∀ l ∈ (List.range O).map (fun j =>
        List.take (c * I) (List.drop (j * (E * I) + k * c * I) t.data)), l.length = c * I := by
      intro l hl
      obtain ⟨j, hj, rfl⟩ := List.mem_map.mp hl
      have hjlt : j < O := List.mem_range.mp hj
      rw [List.length_take, List.length_drop]
      have h1 : k * c * I + c * I = (k + 1) * c * I := by ring
      have h2 : (k + 1) * c * I ≤ (w' + 1) * c * I :=
        Nat.mul_le_mul_right I (Nat.mul_le_mul_right c (by omega))
      have h3 : (w' + 1) * c * I = E * I := by rw [hE]
      have h4 : j * (E * I) + E * I = (j + 1) * (E * I) := by ring
      have h5 : (j + 1) * (E * I) ≤ O * (E * I) := Nat.mul_le_mul_right (E * I) hjlt
      have hfull : t.data.length = O * (E * I) := by rw [hlen, prod_split t.shape d hd]
      omega
    rw [hdataF, flatten_block _ (c * I) hlens i (by simpa using hi), getD_range_map _ O i hi]
  have hinner : ∀ i : Nat, i < O →
      (List.map (fun u => List.take (u.shape.getD d 0 * I) (List.drop (i * (u.shape.getD d 0 * I)) u.data))
          (List.map (fun k => shardChunk t d c k) (List.range (w' + 1)))).flatten =
      List.take (E * I) (List.drop (0 + i * (E * I)) t.data) := by
    intro i hi
    have hmaps : (List.map (fun u => List.take (u.shape.getD d 0 * I) (List.drop (i * (u.shape.getD d 0 * I)) u.data))
          (List.map (fun k => shardChunk t d c k) (List.range (w' + 1)))) =
        (List.range (w' + 1)).map (fun k =>
          List.take (c * I) (List.drop (i * (E * I) + k * (c * I)) t.data)) := by
      rw [List.map_map]
      apply List.map_congr_left
      intro k hk
      simp only [Function.comp_apply]
      rw [hsc_shape k, getD_set_self t.shape d c hd]
      rw [hblock i k hi (List.mem_range.mp hk)]
      have harr : i * (E * I) + k * c * I = i * (E * I) + k * (c * I) := by ring
      rw [harr]
    rw [hmaps, flatten_slices t.data (c * I) (w' + 1) (i * (E * I))]
    have hwc : (w' + 1) * (c * I) = E * I := by rw [hE]; ring
    rw [hwc, Nat.zero_add]
  have houter : List.map
      (fun i => (List.map (fun u => List.take (u.shape.getD d 0 * I) (List.drop (i * (u.shape.getD d 0 * I)) u.data))
          (List.map (fun k => shardChunk t d c k) (List.range (w' + 1)))).flatten)
      (List.range O) =
      List.map (fun i => List.take (E * I) (List.drop (0 + i * (E * I)) t.data)) (List.range O) := by
    apply List.map_congr_left
    intro i hi
    exact hinner i (List.mem_range.mp hi)
  rw [houter, flatten_slices t.data (E * I) O 0]
  have hfull2 : t.data.length = O * (E * I) := by rw [hlen, prod_split t.shape d hd]
  rw [List.drop_zero, ← hfull2, List.take_length]
  rfl

/-! Evaluation lemmas for the shard and gather operations. -/

theorem pyGetNat_inv (l : List Nat) (i : Int) (extent : Nat)
    (h : pyGetNat l i = Except.ok extent) :
    (0 ≤ normDim i l.length ∧ (normDim i l.length).toNat < l.length) ∧
      l.getD (normDim i l.length).toNat 0 = extent := by
  simp only [pyGetNat] at h
  split at h
  case isTrue hc => exact ⟨hc, by injection h⟩
  case isFalse hc => exact absurd h (by simp)

theorem shard_1d_eval (c : ColoTensor) (gpc : Gpc) (a : ParallelAction) (dim : Int)
    (extent w r : Nat)
    (hw : gpc.get_world_size a.parallel_mode = w)
    (hr : gpc.get_local_rank a.parallel_mode = r)
    (hget : pyGetNat c._size dim = Except.ok extent)
    (hwpos : 0 < w) (hrw : r < w)
    (hdvd : extent % w = 0)
    (hshape : c._torch_tensor.shape = c._size) :
    ∃ st, c._torch_tensor.narrow dim (r * (extent / w)) (extent / w) = some st ∧
      ColoTensor._shard_1d c gpc a dim = Except.ok { c with
        _torch_tensor := { st.detach.contiguous with requires_grad := c._requires_grad },
        _size := st.shape } := by
  obtain ⟨⟨hc0, hclt⟩, hcget⟩ := pyGetNat_inv c._size dim extent hget
  have hdivide : divide extent w = Except.ok (extent / w) := by
    unfold divide
    rw [if_pos ⟨by omega, hdvd⟩]
  have hbound : r * (extent / w) + extent / w ≤ extent := by
    have h1 : r * (extent / w) + extent / w = (r + 1) * (extent / w) := by ring
    have h2 : (r + 1) * (extent / w) ≤ w * (extent / w) :=
      Nat.mul_le_mul_right (extent / w) (by omega)
    have h3 : w * (extent / w) = extent := Nat.mul_div_cancel' (Nat.dvd_of_mod_eq_zero hdvd)
    omega
  have hnarrow : c._torch_tensor.narrow dim (r * (extent / w)) (extent / w) =
      some { c._torch_tensor with
        shape := c._torch_tensor.shape.set (normDim dim c._size.length).toNat (extent / w),
        data := ((List.range ((c._torch_tensor.shape.take (normDim dim c._size.length).toNat).prod)).map (fun i =>
          ((c._torch_tensor.data.drop (i * (c._torch_tensor.shape.getD (normDim dim c._size.length).toNat 0 * (c._torch_tensor.shape.drop ((normDim dim c._size.length).toNat + 1)).prod) +
            (r * (extent / w)) * (c._torch_tensor.shape.drop ((normDim dim c._size.length).toNat + 1)).prod)).take
              ((extent / w) * (c._torch_tensor.shape.drop ((normDim dim c._size.length).toNat + 1)).prod)))).flatten } := by
    simp only [TTensor.narrow, hshape]
    rw [if_pos ⟨hc0, hclt⟩]
    rw [if_pos (by rw [hcget]; exact hbound)]
  refine ⟨_, hnarrow, ?_⟩
  simp only [ColoTensor._shard_1d, hget, hw, hr, hdivide, hnarrow]
  rfl

theorem shard_dispatch (c : ColoTensor) (gpc : Gpc) (env : DistEnv) (a : ParallelAction)
    (hNA : c._shard_pattern = ShardPattern.NA)
    (hspec : c._shard_spec = some { parallel_action_list := [a] }) :
    ColoTensor.shard c gpc env =
      (if a.compute_pattern = ComputePattern.TP1DRow_Linear ∨
          a.compute_pattern = ComputePattern.TP1DCol_Embedding then
        (match ColoTensor._shard_1d c gpc a (-1) with
         | Except.error e => Except.error e
         | Except.ok s2 => Except.ok { s2 with _shard_pattern := ShardPattern.Col })
      else if a.compute_pattern = ComputePattern.TP1DCol_Linear ∨
          a.compute_pattern = ComputePattern.TP1DRow_Embedding then
        (match ColoTensor._shard_1d c gpc a 0 with
         | Except.error e => Except.error e
         | Except.ok s2 => Except.ok { s2 with _shard_pattern := ShardPattern.Row })
      else Except.error (Err.notImplementedError, c)) := by
  unfold ColoTensor.shard
  rw [hspec]
  simp only [hNA, ne_eq, not_true_eq_false, if_false, ite_false]
  rw [hspec]
  simp [TensorSpec.num_action, TensorSpec.compute_patterns, TensorSpec.get_action_by_compute_pattern]

theorem shard_noop_of_num_action_ne_one (c : ColoTensor) (gpc : Gpc) (env : DistEnv)
    (sp : TensorSpec)
    (hNA : c._shard_pattern = ShardPattern.NA)
    (hspec : c._shard_spec = some sp)
    (hnum : sp.num_action ≠ 1) :
    ColoTensor.shard c gpc env = Except.ok c := by
  unfold ColoTensor.shard
  rw [hspec]
  simp only [hNA, ne_eq, not_true_eq_false, if_false, ite_false]
  rw [hspec]
  simp [hnum]

theorem gather_eval_ok (c : ColoTensor) (env : DistEnv) (sp : TensorSpec)
    (pa : ParallelAction) (gt : TTensor)
    (hact : c._type = TensorType.NONMODEL)
    (hp : c._shard_pattern ≠ ShardPattern.NA)
    (hspec : c._shard_spec = some sp)
    (hdp : sp.get_action_by_compute_pattern ComputePattern.DP = some pa)
    (hcat : TTensor.cat (env pa.parallel_mode)
      (if c._shard_pattern = ShardPattern.Row then 0 else -1) = some gt) :
    ColoTensor.gather c env = Except.ok { c with
      _torch_tensor := gt, _shard_pattern := ShardPattern.NA, _size := gt.shape } := by
  simp only [ColoTensor.gather, ColoTensor.is_activation, ColoTensor.is_gathered, hact, hspec, hdp,
    gather_forward_split_backward]
  rw [if_neg (by simp)]
  rw [if_neg (by simp [hp])]
  simp only [hcat]

theorem gather_err_not_activation (c : ColoTensor) (env : DistEnv)
    (hact : c._type = TensorType.MODEL) :
    ColoTensor.gather c env =
      Except.error (Err.assertionError "Currently we only support gather Activation ColoTensor.", c) := by
  simp only [ColoTensor.gather, ColoTensor.is_activation, hact]
  rw [if_pos (by simp)]

theorem gather_err_gathered (c : ColoTensor) (env : DistEnv)
    (hact : c._type = TensorType.NONMODEL)
    (hp : c._shard_pattern = ShardPattern.NA) :
    ColoTensor.gather c env =
      Except.error (Err.assertionError "Only sharded ColoTensor can be gathered.", c) := by
  simp only [ColoTensor.gather, ColoTensor.is_activation, ColoTensor.is_gathered, hact, hp]
  rw [if_neg (by simp)]
  rw [if_pos (by simp)]

theorem gather_err_no_dp (c : ColoTensor) (env : DistEnv) (sp : TensorSpec)
    (hact : c._type = TensorType.NONMODEL)
    (hp : c._shard_pattern ≠ ShardPattern.NA)
    (hspec : c._shard_spec = some sp)
    (hdp : sp.get_action_by_compute_pattern ComputePattern.DP = none) :
    ColoTensor.gather c env = Except.error (Err.attributeError, c) := by
  simp only [ColoTensor.gather, ColoTensor.is_activation, ColoTensor.is_gathered, hact, hspec, hdp]
  rw [if_neg (by simp)]
  rw [if_neg (by simp [hp])]

theorem shard_resharded_gathers (c : ColoTensor) (gpc : Gpc) (env : DistEnv)
    (sp : TensorSpec) (pa : ParallelAction) (gt : TTensor)
    (hact : c._type = TensorType.NONMODEL)
    (hp : c._shard_pattern ≠ ShardPattern.NA)
    (hspec : c._shard_spec = some sp)
    (hdp : sp.get_action_by_compute_pattern ComputePattern.DP = some pa)
    (hnum : sp.num_action ≠ 1)
    (hcat : TTensor.cat (env pa.parallel_mode)
      (if c._shard_pattern = ShardPattern.Row then 0 else -1) = some gt) :
    ColoTensor.shard c gpc env = Except.ok { c with
      _torch_tensor := gt, _shard_pattern := ShardPattern.NA, _size := gt.shape } := by
  have hg := gather_eval_ok c env sp pa gt hact hp hspec hdp hcat
  unfold ColoTensor.shard
  rw [hspec]
  rw [if_pos hp, hg]
  simp [hspec, hnum]

/-- A single-action layout spec carrying the given compute pattern. -/
def tpSpec (cp : ComputePattern) (m : Nat) : TensorSpec :=
  { parallel_action_list := [{ compute_pattern := cp, parallel_mode := m }] }

/-- A layout spec declaring only a Data-Parallel action on mode `m`. -/
def dpSpec (m : Nat) : TensorSpec :=
  { parallel_action_list := [{ compute_pattern := ComputePattern.DP, parallel_mode := m }] }

/-- The expected state of the wrapped tensor after a successful shard of the
full tensor `t` under a single-action spec: the local chunk of rank `k` along
dimension `d`, the updated logical size, and the new shard pattern. -/
def expectedSharded (t : TTensor) (cp : ComputePattern) (m d c k : Nat) : ColoTensor :=
  { ColoTensor.init_from_torch_tensor t true false with
    _shard_spec := some (tpSpec cp m),
    _torch_tensor := { shardChunk t d c k with requires_grad := t.requires_grad },
    _size := t.shape.set d c,
    _shard_pattern := if cp = ComputePattern.TP1DRow_Linear ∨ cp = ComputePattern.TP1DCol_Embedding
      then ShardPattern.Col else ShardPattern.Row }

theorem shard_pipeline_eval (t : TTensor) (cp : ComputePattern) (m w c k d : Nat) (env : DistEnv)
    (hw : 0 < w) (hk : k < w)
    (hrank : 0 < t.shape.length)
    (hdisp : ((cp = ComputePattern.TP1DRow_Linear ∨ cp = ComputePattern.TP1DCol_Embedding) ∧
        d = t.shape.length - 1) ∨
      ((cp = ComputePattern.TP1DCol_Linear ∨ cp = ComputePattern.TP1DRow_Embedding) ∧ d = 0))
    (hE : t.shape.getD d 0 = w * c) :
    ColoTensor.set_spec (ColoTensor.init_from_torch_tensor t true false) (tpSpec cp m) true
      (mkGpc w k) env = Except.ok (expectedSharded t cp m d c k) := by
  have hq : w * c / w = c := Nat.mul_div_cancel_left c hw
  have hdvd : (w * c) % w = 0 := Nat.mul_mod_right w c
  have hkc : k * c + c ≤ w * c := by
    have h1 : k * c + c = (k + 1) * c := by ring
    have h2 : (k + 1) * c ≤ w * c := Nat.mul_le_mul_right c (by omega)
    omega
  unfold ColoTensor.set_spec
  rw [if_pos rfl]
  rw [shard_dispatch _ (mkGpc w k) env { compute_pattern := cp, parallel_mode := m } rfl rfl]
  rcases hdisp with ⟨hcp, hd⟩ | ⟨hcp, hd⟩
  case inl =>
    rw [if_pos hcp]
    have hget : pyGetNat ({ ColoTensor.init_from_torch_tensor t true false with
        _shard_spec := some (tpSpec cp m) } : ColoTensor)._size (-1) = Except.ok (w * c) := by
      show pyGetNat t.shape (-1) = Except.ok (w * c)
      unfold pyGetNat
      rw [normDim_neg_one t.shape.length hrank]
      rw [if_pos ⟨by omega, by simp [Int.toNat_natCast]; omega⟩]
      rw [Int.toNat_natCast, ← hd, hE]
    obtain ⟨st, hnarrow, heval⟩ := shard_1d_eval _ (mkGpc w k)
      { compute_pattern := cp, parallel_mode := m } (-1) (w * c) w k rfl rfl hget hw hk hdvd rfl
    have hnarrow2 : (({ ColoTensor.init_from_torch_tensor t true false with
        _shard_spec := some (tpSpec cp m) } : ColoTensor))._torch_tensor.narrow (-1)
          (k * (w * c / w)) (w * c / w) = some (shardChunk t d c k) := by
      show t.narrow (-1) (k * (w * c / w)) (w * c / w) = some (shardChunk t d c k)
      rw [hq]
      exact narrow_eq_shardChunk t (-1) d c k
        (by rw [hd]; exact normDim_neg_one t.shape.length hrank)
        (by omega) (by rw [hE]; exact hkc)
    have hst : st = shardChunk t d c k := by
      have := hnarrow.symm.trans hnarrow2
      exact Option.some.inj this
    rw [heval, hst]
    rw [expectedSharded, if_pos hcp]
    rfl
  case inr =>
    rw [if_neg (by rcases hcp with h | h <;> simp [h]), if_pos hcp]
    have hget : pyGetNat ({ ColoTensor.init_from_torch_tensor t true false with
        _shard_spec := some (tpSpec cp m) } : ColoTensor)._size 0 = Except.ok (w * c) := by
      show pyGetNat t.shape 0 = Except.ok (w * c)
      unfold pyGetNat
      rw [normDim_zero]
      rw [if_pos ⟨by omega, by simpa [Int.toNat_natCast] using hrank⟩]
      rw [Int.toNat_natCast, ← hE, hd]
    obtain ⟨st, hnarrow, heval⟩ := shard_1d_eval _ (mkGpc w k)
      { compute_pattern := cp, parallel_mode := m } 0 (w * c) w k rfl rfl hget hw hk hdvd rfl
    have hnarrow2 : (({ ColoTensor.init_from_torch_tensor t true false with
        _shard_spec := some (tpSpec cp m) } : ColoTensor))._torch_tensor.narrow 0
          (k * (w * c / w)) (w * c / w) = some (shardChunk t d c k) := by
      show t.narrow 0 (k * (w * c / w)) (w * c / w) = some (shardChunk t d c k)
      rw [hq]
      exact narrow_eq_shardChunk t 0 d c k
        (by rw [hd]; exact normDim_zero t.shape.length)
        (by omega) (by rw [hE]; exact hkc)
    have hst : st = shardChunk t d c k := by
      have := hnarrow.symm.trans hnarrow2
      exact Option.some.inj this
    rw [heval, hst]
    rw [expectedSharded, if_neg (by rcases hcp with h | h <;> simp [h])]
    rfl

theorem gather_roundtrip_eval (t : TTensor) (cp : ComputePattern) (m mdp w c r d : Nat)
    (hw : 0 < w) (hr : r < w)
    (hrank : 0 < t.shape.length)
    (hlen : t.data.length = t.shape.prod)
    (hdisp : ((cp = ComputePattern.TP1DRow_Linear ∨ cp = ComputePattern.TP1DCol_Embedding) ∧
        d = t.shape.length - 1) ∨
      ((cp = ComputePattern.TP1DCol_Linear ∨ cp = ComputePattern.TP1DRow_Embedding) ∧ d = 0))
    (hE : t.shape.getD d 0 = w * c) :
    ColoTensor.gather
      { expectedSharded t cp m d c r with _shard_spec := some (dpSpec mdp) }
      (fun _ => (List.range w).map (fun k => shardChunk t d c k)) =
    Except.ok { expectedSharded t cp m d c r with
      _shard_spec := some (dpSpec mdp),
      _torch_tensor := t, _shard_pattern := ShardPattern.NA, _size := t.shape } := by
  rcases hdisp with ⟨hcp, hd⟩ | ⟨hcp, hd⟩
  case inl =>
    have hpat : ({ expectedSharded t cp m d c r with
        _shard_spec := some (dpSpec mdp) } : ColoTensor)._shard_pattern = ShardPattern.Col := by
      show (if cp = ComputePattern.TP1DRow_Linear ∨ cp = ComputePattern.TP1DCol_Embedding
        then ShardPattern.Col else ShardPattern.Row) = ShardPattern.Col
      rw [if_pos hcp]
    have hcat : TTensor.cat ((fun _ : Nat => (List.range w).map (fun k => shardChunk t d c k)) mdp)
        (if ({ expectedSharded t cp m d c r with
          _shard_spec := some (dpSpec mdp) } : ColoTensor)._shard_pattern = ShardPattern.Row
          then 0 else -1) = some t := by
      rw [hpat, if_neg (by simp)]
      exact cat_shardChunks t (-1) d w c hw
        (by rw [hd]; exact normDim_neg_one t.shape.length hrank) (by omega) hlen hE
    have := gather_eval_ok _ (fun _ : Nat => (List.range w).map (fun k => shardChunk t d c k))
      (dpSpec mdp) { compute_pattern := ComputePattern.DP, parallel_mode := mdp }
      t rfl (by rw [hpat]; simp) rfl rfl hcat
    rw [this]
  case inr =>
    have hpat : ({ expectedSharded t cp m d c r with
        _shard_spec := some (dpSpec mdp) } : ColoTensor)._shard_pattern = ShardPattern.Row := by
      show (if cp = ComputePattern.TP1DRow_Linear ∨ cp = ComputePattern.TP1DCol_Embedding
        then ShardPattern.Col else ShardPattern.Row) = ShardPattern.Row
      rw [if_neg (by rcases hcp with h | h <;> simp [h])]
    have hcat : TTensor.cat ((fun _ : Nat => (List.range w).map (fun k => shardChunk t d c k)) mdp)
        (if ({ expectedSharded t cp m d c r with
          _shard_spec := some (dpSpec mdp) } : ColoTensor)._shard_pattern = ShardPattern.Row
          then 0 else -1) = some t := by
      rw [hpat, if_pos rfl]
      exact cat_shardChunks t 0 d w c hw
        (by rw [hd]; exact normDim_zero t.shape.length) (by omega) hlen hE
    have := gather_eval_ok _ (fun _ : Nat => (List.range w).map (fun k => shardChunk t d c k))
      (dpSpec mdp) { compute_pattern := ComputePattern.DP, parallel_mode := mdp }
      t rfl (by rw [hpat]; simp) rfl rfl hcat
    rw [this]

/-! Concrete fixtures for the counterexamples and witnesses. -/

/-- A concrete four-element tensor. -/
def fixT4 : TTensor :=
  { shape := [4], data := [1, 2, 3, 4], requires_grad := true,
    dtype := some 1, device := some 0, pin_memory := false }

/-- The wrapped (NonModelData) tensor over `fixT4`. -/
def fixC0 : ColoTensor := ColoTensor.init_from_torch_tensor fixT4 true false

/-- The rank-ordered local shards of `fixT4` over a world of size two. -/
def fixEnv : DistEnv := fun _ => [shardChunk fixT4 0 2 0, shardChunk fixT4 0 2 1]

/-- The expected sharded state of `fixC0` at rank 0 of world size 2 under a
single `TP1DRow_Linear` action. -/
def fixSharded : ColoTensor := expectedSharded fixT4 ComputePattern.TP1DRow_Linear 0 0 2 0

/-- C1, counterexample: the concrete four-element NonModelData tensor with a
valid single-action layout spec (`TP1DRow_Linear`, world size 2, rank 0,
extent 4 evenly divisible) shards successfully, but the subsequent `gather()`
does not reconstruct the original tensor: it fails with an attribute error,
because the single-action spec declares no Data-Parallel action and the
gather's lookup of that action yields nothing. -/
theorem C1_counterexample :
    ColoTensor.set_spec fixC0 (tpSpec ComputePattern.TP1DRow_Linear 0) true (mkGpc 2 0) fixEnv =
      Except.ok fixSharded ∧
    fixSharded._torch_tensor.data = [1, 2] ∧
    (4 : Nat) % 2 = 0 ∧
    ColoTensor.gather fixSharded fixEnv = Except.error (Err.attributeError, fixSharded) :=
  ⟨rfl, rfl, rfl, rfl⟩

/-- C1, amended: for every NonModelData wrapped tensor whose extent along the
shard dimension is `w * c`, sharding under a valid single-action layout spec
gives every rank `k` its chunk `[k*c, (k+1)*c)`; and gathering rank `r`'s
shard reconstructs a tensor bit-identical to the original full tensor,
provided the layout spec is first replaced (without re-sharding) by one that
declares the Data-Parallel action the gather looks up, the external collective
concatenating the rank-ordered shards along the shard dimension. -/
theorem C1_roundtrip (t : TTensor) (cp : ComputePattern) (m mdp w c r d : Nat)
    (hw : 0 < w) (hr : r < w)
    (hrank : 0 < t.shape.length)
    (hlen : t.data.length = t.shape.prod)
    (hdisp : ((cp = ComputePattern.TP1DRow_Linear ∨ cp = ComputePattern.TP1DCol_Embedding) ∧
        d = t.shape.length - 1) ∨
      ((cp = ComputePattern.TP1DCol_Linear ∨ cp = ComputePattern.TP1DRow_Embedding) ∧ d = 0))
    (hE : t.shape.getD d 0 = w * c) :
    (∀ k, k < w → ColoTensor.set_spec (ColoTensor.init_from_torch_tensor t true false)
        (tpSpec cp m) true (mkGpc w k) (fun _ => []) = Except.ok (expectedSharded t cp m d c k)) ∧
    ColoTensor.set_spec (expectedSharded t cp m d c r) (dpSpec mdp) false (mkGpc w r)
        (fun _ => (List.range w).map (fun k => shardChunk t d c k)) =
      Except.ok { expectedSharded t cp m d c r with _shard_spec := some (dpSpec mdp) } ∧
    ColoTensor.gather { expectedSharded t cp m d c r with _shard_spec := some (dpSpec mdp) }
        (fun _ => (List.range w).map (fun k => shardChunk t d c k)) =
      Except.ok { expectedSharded t cp m d c r with
        _shard_spec := some (dpSpec mdp),
        _torch_tensor := t, _shard_pattern := ShardPattern.NA, _size := t.shape } := by
  refine ⟨fun k hk => shard_pipeline_eval t cp m w c k d (fun _ => []) hw hk hrank hdisp hE,
    rfl, gather_roundtrip_eval t cp m mdp w c r d hw hr hrank hlen hdisp hE⟩

/-- C1, witness: the amended round trip evaluated on the concrete
four-element tensor, world size 2, rank 0. -/
theorem C1_roundtrip_witness :
    ColoTensor.gather { expectedSharded fixT4 ComputePattern.TP1DRow_Linear 0 0 2 0 with
        _shard_spec := some (dpSpec 0) }
      (fun _ => (List.range 2).map (fun k => shardChunk fixT4 0 2 k)) =
    Except.ok { expectedSharded fixT4 ComputePattern.TP1DRow_Linear 0 0 2 0 with
      _shard_spec := some (dpSpec 0),
      _torch_tensor := fixT4, _shard_pattern := ShardPattern.NA, _size := fixT4.shape } :=
  (C1_roundtrip fixT4 ComputePattern.TP1DRow_Linear 0 0 2 2 0 0 (by decide) (by decide)
    (by decide) (by decide) (Or.inl ⟨Or.inl rfl, by decide⟩) (by decide)).2.2

/-- A layout spec declaring two actions (a tensor-parallel one and a
Data-Parallel one, both on mode 0). -/
def fixSpec2 : TensorSpec :=
  { parallel_action_list := [
      { compute_pattern := ComputePattern.TP1DRow_Linear, parallel_mode := 0 },
      { compute_pattern := ComputePattern.DP, parallel_mode := 0 }] }

/-- C2, counterexample: on the concrete unsharded tensor with a layout spec
declaring two partition actions, `shard()` does not fail with a
not-implemented error: it returns successfully and leaves the tensor
unchanged (beyond the spec assignment performed by `set_spec`). -/
theorem C2_counterexample :
    ColoTensor.set_spec fixC0 fixSpec2 true (mkGpc 2 0) fixEnv =
      Except.ok { fixC0 with _shard_spec := some fixSpec2 } ∧
    fixSpec2.num_action = 2 :=
  ⟨rfl, rfl⟩

/-- C2, amended: with a layout spec declaring a number of actions other than
one, `shard()` on an unsharded tensor silently does nothing and returns with
the state unchanged; the fatal not-implemented error arises only inside the
single-action path, for an unrecognized compute pattern. -/
theorem C2_noop (c : ColoTensor) (gpc : Gpc) (env : DistEnv) (sp : TensorSpec)
    (hNA : c._shard_pattern = ShardPattern.NA)
    (hspec : c._shard_spec = some sp)
    (hnum : sp.num_action ≠ 1) :
    ColoTensor.shard c gpc env = Except.ok c :=
  shard_noop_of_num_action_ne_one c gpc env sp hNA hspec hnum

/-- C2, witness: the no-op evaluated on the concrete tensor with the
two-action spec. -/
theorem C2_noop_witness :
    ColoTensor.shard { fixC0 with _shard_spec := some fixSpec2 } (mkGpc 2 0) fixEnv =
      Except.ok { fixC0 with _shard_spec := some fixSpec2 } :=
  C2_noop { fixC0 with _shard_spec := some fixSpec2 } (mkGpc 2 0) fixEnv fixSpec2
    rfl rfl (by decide)

/-- The concrete sharded tensor re-specced with the two-action spec. -/
def fixShardedSpec2 : ColoTensor := { fixSharded with _shard_spec := some fixSpec2 }

/-- The state `fixShardedSpec2` reaches after `shard()`: fully gathered. -/
def fixGathered : ColoTensor :=
  { fixShardedSpec2 with
    _torch_tensor := fixT4,
    _shard_pattern := ShardPattern.NA,
    _size := fixT4.shape }

/-- C3, counterexample: re-sharding never yields a direct shard of the
original tensor.  With the single-action spec the implicit gather fails
(attribute error: no Data-Parallel action); with a spec that does declare the
Data-Parallel action (two actions), `shard()` performs the gather and then,
the spec not declaring exactly one action, applies no new shard: the call
returns the fully gathered tensor (shard pattern not-applicable, full
storage), not a shard. -/
theorem C3_counterexample :
    ColoTensor.shard fixSharded (mkGpc 2 0) fixEnv =
      Except.error (Err.attributeError, fixSharded) ∧
    ColoTensor.shard fixShardedSpec2 (mkGpc 2 0) fixEnv = Except.ok fixGathered ∧
    fixGathered._shard_pattern = ShardPattern.NA ∧
    fixGathered._torch_tensor = fixT4 ∧
    fixSharded._shard_pattern = ShardPattern.Col :=
  ⟨rfl, rfl, rfl, rfl, rfl⟩

/-- C3, amended: calling `shard()` on a currently sharded NonModelData tensor
does perform the full gather first (using the Data-Parallel action of the
current spec over the rank-ordered shards); but because a spec containing the
Data-Parallel action next to the tensor-parallel one declares more than one
action, the subsequent re-shard is not applied: the call returns the fully
gathered tensor, never a shard of a shard. -/
theorem C3_reshard_gathers (c : ColoTensor) (gpc : Gpc) (env : DistEnv)
    (sp : TensorSpec) (pa : ParallelAction) (gt : TTensor)
    (hact : c._type = TensorType.NONMODEL)
    (hp : c._shard_pattern ≠ ShardPattern.NA)
    (hspec : c._shard_spec = some sp)
    (hdp : sp.get_action_by_compute_pattern ComputePattern.DP = some pa)
    (hnum : sp.num_action ≠ 1)
    (hcat : TTensor.cat (env pa.parallel_mode)
      (if c._shard_pattern = ShardPattern.Row then 0 else -1) = some gt) :
    ColoTensor.shard c gpc env = Except.ok { c with
      _torch_tensor := gt, _shard_pattern := ShardPattern.NA, _size := gt.shape } :=
  shard_resharded_gathers c gpc env sp pa gt hact hp hspec hdp hnum hcat

/-- C3, witness: the amended statement evaluated on the concrete sharded
tensor with the two-action spec. -/
theorem C3_reshard_witness :
    ColoTensor.shard fixShardedSpec2 (mkGpc 2 0) fixEnv = Except.ok { fixShardedSpec2 with
      _torch_tensor := fixT4, _shard_pattern := ShardPattern.NA, _size := fixT4.shape } :=
  C3_reshard_gathers fixShardedSpec2 (mkGpc 2 0) fixEnv fixSpec2
    { compute_pattern := ComputePattern.DP, parallel_mode := 0 } fixT4
    rfl (by decide) rfl (by decide) (by decide) (by decide)

/-- C4: with a single-action layout spec on an unsharded tensor, `shard()`
dispatches on the action's compute pattern: `TP1DRow_Linear` or
`TP1DCol_Embedding` shard along the last dimension (`-1`) and set the pattern
to column-sharded; `TP1DCol_Linear` or `TP1DRow_Embedding` shard along
dimension 0 and set the pattern to row-sharded; any other compute pattern
raises the not-implemented error. -/
theorem C4_dispatch (c : ColoTensor) (gpc : Gpc) (env : DistEnv) (a : ParallelAction)
    (hNA : c._shard_pattern = ShardPattern.NA)
    (hspec : c._shard_spec = some { parallel_action_list := [a] }) :
    ((a.compute_pattern = ComputePattern.TP1DRow_Linear ∨
        a.compute_pattern = ComputePattern.TP1DCol_Embedding) →
      ColoTensor.shard c gpc env =
        (match ColoTensor._shard_1d c gpc a (-1) with
         | Except.error e => Except.error e
         | Except.ok s2 => Except.ok { s2 with _shard_pattern := ShardPattern.Col })) ∧
    ((a.compute_pattern = ComputePattern.TP1DCol_Linear ∨
        a.compute_pattern = ComputePattern.TP1DRow_Embedding) →
      ColoTensor.shard c gpc env =
        (match ColoTensor._shard_1d c gpc a 0 with
         | Except.error e => Except.error e
         | Except.ok s2 => Except.ok { s2 with _shard_pattern := ShardPattern.Row })) ∧
    (¬ (a.compute_pattern = ComputePattern.TP1DRow_Linear ∨
        a.compute_pattern = ComputePattern.TP1DCol_Embedding) →
     ¬ (a.compute_pattern = ComputePattern.TP1DCol_Linear ∨
        a.compute_pattern = ComputePattern.TP1DRow_Embedding) →
      ColoTensor.shard c gpc env = Except.error (Err.notImplementedError, c)) := by
  have hdisp := shard_dispatch c gpc env a hNA hspec
  refine ⟨fun h1 => ?_, fun h2 => ?_, fun h1 h2 => ?_⟩
  · rw [hdisp, if_pos h1]
  · rw [hdisp, if_neg ?_, if_pos h2]
    rcases h2 with h | h <;> simp [h]
  · rw [hdisp, if_neg h1, if_neg h2]

/-- C4, witness: the dispatch evaluated on the concrete tensor for a
row-parallel-linear action (last-dimension shard, column pattern). -/
theorem C4_dispatch_witness :
    ColoTensor.shard { fixC0 with _shard_spec := some (tpSpec ComputePattern.TP1DRow_Linear 0) }
        (mkGpc 2 0) fixEnv =
      (match ColoTensor._shard_1d
          { fixC0 with _shard_spec := some (tpSpec ComputePattern.TP1DRow_Linear 0) } (mkGpc 2 0)
          { compute_pattern := ComputePattern.TP1DRow_Linear, parallel_mode := 0 } (-1) with
       | Except.error e => Except.error e
       | Except.ok s2 => Except.ok { s2 with _shard_pattern := ShardPattern.Col }) :=
  (C4_dispatch { fixC0 with _shard_spec := some (tpSpec ComputePattern.TP1DRow_Linear 0) }
    (mkGpc 2 0) fixEnv { compute_pattern := ComputePattern.TP1DRow_Linear, parallel_mode := 0 }
    rfl rfl).1 (Or.inl rfl)

/-- C5: under a world of size `w` and local rank `r < w`, with the logical
extent along `dim` evenly divisible by `w`, the 1-D shard computes the chunk
size `extent / w`, replaces the storage by the gradient-detached contiguous
slice `[r*chunk, (r+1)*chunk)` along `dim` with the tensor's requires-grad
flag re-attached, and updates the logical size to the new local storage
shape. -/
theorem C5_shard_1d (c : ColoTensor) (gpc : Gpc) (a : ParallelAction) (dim : Int)
    (extent w r : Nat)
    (hw : gpc.get_world_size a.parallel_mode = w)
    (hr : gpc.get_local_rank a.parallel_mode = r)
    (hget : pyGetNat c._size dim = Except.ok extent)
    (hwpos : 0 < w) (hrw : r < w)
    (hdvd : extent % w = 0)
    (hshape : c._torch_tensor.shape = c._size) :
    ∃ st, c._torch_tensor.narrow dim (r * (extent / w)) (extent / w) = some st ∧
      ColoTensor._shard_1d c gpc a dim = Except.ok { c with
        _torch_tensor := { st.detach.contiguous with requires_grad := c._requires_grad },
        _size := st.shape } :=
  shard_1d_eval c gpc a dim extent w r hw hr hget hwpos hrw hdvd hshape

/-- C5, witness: the 1-D shard evaluated on the concrete tensor at rank 1 of
world size 2 along dimension 0 (chunk size 2, slice `[2, 4)`). -/
theorem C5_shard_1d_witness :
    ∃ st, fixC0._torch_tensor.narrow 0 (1 * (4 / 2)) (4 / 2) = some st ∧
      ColoTensor._shard_1d fixC0 (mkGpc 2 1)
          { compute_pattern := ComputePattern.TP1DRow_Linear, parallel_mode := 0 } 0 =
        Except.ok { fixC0 with
          _torch_tensor := { st.detach.contiguous with requires_grad := fixC0._requires_grad },
          _size := st.shape } :=
  C5_shard_1d fixC0 (mkGpc 2 1)
    { compute_pattern := ComputePattern.TP1DRow_Linear, parallel_mode := 0 } 0 4 2 1
    rfl rfl rfl (by decide) (by decide) (by decide) rfl

theorem gather_err_no_spec (c : ColoTensor) (env : DistEnv)
    (hact : c._type = TensorType.NONMODEL)
    (hp : c._shard_pattern ≠ ShardPattern.NA)
    (hspec : c._shard_spec = none) :
    ColoTensor.gather c env = Except.error (Err.attributeError, c) := by
  simp only [ColoTensor.gather, ColoTensor.is_activation, ColoTensor.is_gathered, hact, hspec]
  rw [if_neg (by simp)]
  rw [if_neg (by simp [hp])]

theorem gather_err_cat_fail (c : ColoTensor) (env : DistEnv) (sp : TensorSpec)
    (pa : ParallelAction)
    (hact : c._type = TensorType.NONMODEL)
    (hp : c._shard_pattern ≠ ShardPattern.NA)
    (hspec : c._shard_spec = some sp)
    (hdp : sp.get_action_by_compute_pattern ComputePattern.DP = some pa)
    (hcat : TTensor.cat (env pa.parallel_mode)
      (if c._shard_pattern = ShardPattern.Row then 0 else -1) = none) :
    ColoTensor.gather c env = Except.error (Err.runtimeError, c) := by
  simp only [ColoTensor.gather, ColoTensor.is_activation, ColoTensor.is_gathered, hact, hspec, hdp,
    gather_forward_split_backward]
  rw [if_neg (by simp)]
  rw [if_neg (by simp [hp])]
  simp only [hcat]

/-- C6: `gather()` fails with a fatal assertion unless the tensor is
NonModelData and currently sharded (in particular it always fails on a
ModelData tensor); on success it applies the gather collective along
dimension 0 when row-sharded and along the last dimension (`-1`) when
column-sharded, resets the shard pattern to not-applicable, and updates the
logical size to the gathered storage's shape. -/
theorem C6_gather (c : ColoTensor) (env : DistEnv) :
    (¬ (c._type = TensorType.NONMODEL ∧ c._shard_pattern ≠ ShardPattern.NA) →
      ∃ msg, ColoTensor.gather c env = Except.error (Err.assertionError msg, c)) ∧
    (c._type = TensorType.MODEL →
      ColoTensor.gather c env = Except.error
        (Err.assertionError "Currently we only support gather Activation ColoTensor.", c)) ∧
    (∀ g, ColoTensor.gather c env = Except.ok g →
      ∃ sp pa gt, c._shard_spec = some sp ∧
        sp.get_action_by_compute_pattern ComputePattern.DP = some pa ∧
        TTensor.cat (env pa.parallel_mode)
          (if c._shard_pattern = ShardPattern.Row then 0 else -1) = some gt ∧
        g = { c with
          _torch_tensor := gt,
          _shard_pattern := ShardPattern.NA,
          _size := gt.shape }) := by
  refine ⟨fun h => ?_, fun h => gather_err_not_activation c env h, fun g hok => ?_⟩
  · cases htype : c._type with
    | MODEL => exact ⟨_, gather_err_not_activation c env htype⟩
    | NONMODEL =>
      have hp : c._shard_pattern = ShardPattern.NA := by
        by_contra hne
        exact h ⟨htype, hne⟩
      exact ⟨_, gather_err_gathered c env htype hp⟩
  · cases htype : c._type with
    | MODEL =>
      rw [gather_err_not_activation c env htype] at hok
      exact Except.noConfusion hok
    | NONMODEL =>
      by_cases hpat : c._shard_pattern = ShardPattern.NA
      · rw [gather_err_gathered c env htype hpat] at hok
        exact Except.noConfusion hok
      · cases hspec : c._shard_spec with
        | none =>
          rw [gather_err_no_spec c env htype hpat hspec] at hok
          exact Except.noConfusion hok
        | some sp =>
          cases hdp : sp.get_action_by_compute_pattern ComputePattern.DP with
          | none =>
            rw [gather_err_no_dp c env sp htype hpat hspec hdp] at hok
            exact Except.noConfusion hok
          | some pa =>
            cases hcat : TTensor.cat (env pa.parallel_mode)
                (if c._shard_pattern = ShardPattern.Row then 0 else -1) with
            | none =>
              rw [gather_err_cat_fail c env sp pa htype hpat hspec hdp hcat] at hok
              exact Except.noConfusion hok
            | some gt =>
              rw [gather_eval_ok c env sp pa gt htype hpat hspec hdp hcat] at hok
              refine ⟨sp, pa, gt, rfl, hdp, hcat, ?_⟩
              rw [← hspec, ← htype]
              exact (Except.ok.inj hok).symm

/-- C6, witness: the success case evaluated on the concrete column-sharded
tensor carrying a Data-Parallel spec, and the failure case on a ModelData
tensor. -/
theorem C6_gather_witness :
    (∃ sp pa gt,
      ({ fixSharded with _shard_spec := some (dpSpec 0) } : ColoTensor)._shard_spec = some sp ∧
      sp.get_action_by_compute_pattern ComputePattern.DP = some pa ∧
      TTensor.cat (fixEnv pa.parallel_mode)
        (if ({ fixSharded with _shard_spec := some (dpSpec 0) } : ColoTensor)._shard_pattern =
          ShardPattern.Row then 0 else -1) = some gt ∧
      ({ fixSharded with
          _shard_spec := some (dpSpec 0),
          _torch_tensor := fixT4,
          _shard_pattern := ShardPattern.NA,
          _size := fixT4.shape } : ColoTensor) =
        { { fixSharded with _shard_spec := some (dpSpec 0) } with
          _torch_tensor := gt, _shard_pattern := ShardPattern.NA, _size := gt.shape }) ∧
    ColoTensor.gather (ColoTensor.init_from_torch_tensor fixT4 true true) fixEnv =
      Except.error (Err.assertionError "Currently we only support gather Activation ColoTensor.",
        ColoTensor.init_from_torch_tensor fixT4 true true) :=
  ⟨(C6_gather { fixSharded with _shard_spec := some (dpSpec 0) } fixEnv).2.2
      { fixSharded with
        _shard_spec := some (dpSpec 0),
        _torch_tensor := fixT4,
        _shard_pattern := ShardPattern.NA,
        _size := fixT4.shape } rfl,
    (C6_gather (ColoTensor.init_from_torch_tensor fixT4 true true) fixEnv).2.1 rfl⟩

theorem shard_1d_div_error (c : ColoTensor) (gpc : Gpc) (a : ParallelAction) (dim : Int)
    (extent : Nat)
    (hget : pyGetNat c._size dim = Except.ok extent)
    (hmod : extent % gpc.get_world_size a.parallel_mode ≠ 0) :
    ColoTensor._shard_1d c gpc a dim = Except.error (Err.divisionError, c) := by
  unfold ColoTensor._shard_1d
  simp only [hget]
  unfold divide
  rw [if_neg (fun hc => hmod hc.2)]

/-- C7: when the logical extent along the shard dimension selected by the
single recognized action is not evenly divisible by the world size, `shard()`
fails with the division error, and the error carries the tensor state exactly
as it was before the call: no partial mutation of storage, logical size or
shard pattern has occurred. -/
theorem C7_uneven_division (c : ColoTensor) (gpc : Gpc) (env : DistEnv) (a : ParallelAction)
    (dim : Int) (extent : Nat)
    (hNA : c._shard_pattern = ShardPattern.NA)
    (hspec : c._shard_spec = some { parallel_action_list := [a] })
    (hdisp : ((a.compute_pattern = ComputePattern.TP1DRow_Linear ∨
        a.compute_pattern = ComputePattern.TP1DCol_Embedding) ∧ dim = -1) ∨
      ((a.compute_pattern = ComputePattern.TP1DCol_Linear ∨
        a.compute_pattern = ComputePattern.TP1DRow_Embedding) ∧ dim = 0))
    (hget : pyGetNat c._size dim = Except.ok extent)
    (hmod : extent % gpc.get_world_size a.parallel_mode ≠ 0) :
    ColoTensor.shard c gpc env = Except.error (Err.divisionError, c) := by
  rw [shard_dispatch c gpc env a hNA hspec]
  have herr := shard_1d_div_error c gpc a dim extent hget hmod
  rcases hdisp with ⟨hcp, hdim⟩ | ⟨hcp, hdim⟩
  · rw [if_pos hcp, ← hdim, herr]
  · rw [if_neg (by rcases hcp with h | h <;> simp [h]), if_pos hcp, ← hdim, herr]

/-- A concrete three-element tensor (extent 3 is not divisible by world
size 2). -/
def fixT3 : TTensor :=
  { shape := [3], data := [1, 2, 3], requires_grad := false,
    dtype := none, device := none, pin_memory := false }

/-- The wrapped tensor over `fixT3` carrying a single-action spec. -/
def fixC3 : ColoTensor :=
  { ColoTensor.init_from_torch_tensor fixT3 true false with
    _shard_spec := some (tpSpec ComputePattern.TP1DRow_Linear 0) }

/-- C7, witness: the division failure evaluated on a three-element tensor
with world size 2, the carried state being the unchanged input. -/
theorem C7_uneven_division_witness :
    ColoTensor.shard fixC3 (mkGpc 2 0) fixEnv = Except.error (Err.divisionError, fixC3) :=
  C7_uneven_division fixC3 (mkGpc 2 0) fixEnv
    { compute_pattern := ComputePattern.TP1DRow_Linear, parallel_mode := 0 } (-1) 3
    rfl rfl (Or.inl ⟨Or.inl rfl, rfl⟩) rfl (by decide)

/-- C8: for an operation with no registered custom implementation, the
interceptor unwraps every wrapped-tensor positional argument and
keyword-argument value to its native tensor, invokes the native operation on
the unwrapped arguments, and re-wraps the result: `None` stays `None`, a
single native-tensor result is wrapped, any other single result passes
through unchanged, and a tuple result is re-wrapped element-wise with the
order preserved. -/
theorem C8_interceptor (colossal_ops : List (Nat × OpHandler)) (func : Nat)
    (nativeFn : List PyVal → List (String × PyVal) → PyVal)
    (args : List PyVal) (kwargs : Option (List (String × PyVal)))
    (hfree : colossal_ops.find? (fun p => decide (p.fst = func)) = none) :
    ColoTensor.torch_function colossal_ops func nativeFn args kwargs =
      Except.ok (ColoTensor._filter_outputs_with_colo (nativeFn (args.map PyVal.unwrapArg)
        ((kwargs.getD []).map (fun p => (p.fst, PyVal.unwrapArg p.snd))))) ∧
    ColoTensor._filter_outputs_with_colo PyVal.none = PyVal.none ∧
    (∀ t : TTensor, ColoTensor._filter_outputs_with_colo (PyVal.tensor t) =
      PyVal.colo (ColoTensor.init_from_torch_tensor t true false)) ∧
    (∀ n : Nat, ColoTensor._filter_outputs_with_colo (PyVal.obj n) = PyVal.obj n) ∧
    (∀ z : ColoTensor, ColoTensor._filter_outputs_with_colo (PyVal.colo z) = PyVal.colo z) ∧
    (∀ items : List PyVal, ColoTensor._filter_outputs_with_colo (PyVal.tuple items) =
      PyVal.tuple (items.map (fun o =>
        match o with
        | PyVal.tensor u => PyVal.colo (ColoTensor.init_from_torch_tensor u true false)
        | _ => o))) := by
  refine ⟨?_, rfl, fun t => rfl, fun n => rfl, fun z => rfl, fun items => rfl⟩
  unfold ColoTensor.torch_function
  rw [hfree]
  cases kwargs with
  | none => rfl
  | some k => rfl

/-- The native negation used by the interceptor witness. -/
def fixNative : List PyVal → List (String × PyVal) → PyVal := fun args kwargs =>
  match args with
  | [PyVal.tensor u] => PyVal.tensor { u with data := u.data.map (fun x => -x) }
  | _ => PyVal.none

/-- C8, witness: dispatching an unregistered negation on the concrete wrapped
tensor unwraps it, negates, and re-wraps the result. -/
theorem C8_interceptor_witness :
    ColoTensor.torch_function [] 7 fixNative [PyVal.colo fixC0] none =
      Except.ok (PyVal.colo (ColoTensor.init_from_torch_tensor
        { fixT4 with data := [-1, -2, -3, -4] } true false)) :=
  ((C8_interceptor [] 7 fixNative [PyVal.colo fixC0] none rfl).1).trans (by rfl)

/-- C9: when the current storage has zero elements, reading the storage
allocates a buffer with the declared size, dtype, pinning, requires-grad and
device parameters, stores it as the tensor's storage, and a subsequent read
returns that same buffer with the state unchanged (no further
reallocation). -/
theorem C9_lazy_materialization (c : ColoTensor) (h : c._torch_tensor.numel = 0) :
    (ColoTensor.torch_tensor c).fst =
      torchEmpty c._size c._dtype c._pin_memory c._requires_grad c._device ∧
    (ColoTensor.torch_tensor c).snd =
      { c with _torch_tensor := torchEmpty c._size c._dtype c._pin_memory c._requires_grad c._device } ∧
    ColoTensor.torch_tensor (ColoTensor.torch_tensor c).snd = ColoTensor.torch_tensor c := by
  have h1 : ColoTensor.torch_tensor c =
      (torchEmpty c._size c._dtype c._pin_memory c._requires_grad c._device,
        { c with _torch_tensor :=
          torchEmpty c._size c._dtype c._pin_memory c._requires_grad c._device }) := by
    unfold ColoTensor.torch_tensor
    rw [if_pos h]
  refine ⟨by rw [h1], by rw [h1], ?_⟩
  rw [h1]
  by_cases h2 : (torchEmpty c._size c._dtype c._pin_memory c._requires_grad c._device).numel = 0
  · unfold ColoTensor.torch_tensor
    rw [if_pos h2]
  · unfold ColoTensor.torch_tensor
    rw [if_neg h2]

/-- A wrapped tensor declared with shape `[2, 2]` whose storage is the empty
placeholder (not yet materialized). -/
def fixLazy : ColoTensor :=
  ColoTensor.init [2, 2] (some 1) false false (some 0) torchEmptyZero
    (some { parallel_action_list := [] }) false

/-- C9, witness: lazy materialization evaluated on a deferred 2-by-2
tensor. -/
theorem C9_lazy_materialization_witness :
    (ColoTensor.torch_tensor fixLazy).fst = torchEmpty [2, 2] (some 1) false false (some 0) ∧
    (ColoTensor.torch_tensor fixLazy).snd =
      { fixLazy with _torch_tensor := torchEmpty [2, 2] (some 1) false false (some 0) } ∧
    ColoTensor.torch_tensor (ColoTensor.torch_tensor fixLazy).snd =
      ColoTensor.torch_tensor fixLazy :=
  C9_lazy_materialization fixLazy (by decide)

/-- Derived-tensor metadata freshness: shard pattern not-applicable and the
default layout spec with zero declared actions. -/
def freshDerived (c : ColoTensor) : Prop :=
  c._shard_pattern = ShardPattern.NA ∧
    c._shard_spec = some { parallel_action_list := [] } ∧
    (c._shard_spec.getD { parallel_action_list := [] }).num_action = 0

/-- C10: every wrapped tensor produced by derivation or re-wrapping —
`init_from_torch_tensor`, indexing, elementwise addition and division, and
the interceptor's result re-wrapping — starts with shard pattern
not-applicable and the default layout spec declaring zero partition actions;
no derived tensor inherits the source tensor's layout spec or shard state. -/
theorem C10_derived_fresh :
    (∀ (t : TTensor) (sp md : Bool), freshDerived (ColoTensor.init_from_torch_tensor t sp md)) ∧
    (∀ (c : ColoTensor) (k : Nat) (r : ColoTensor),
      ColoTensor.getitem c k = Except.ok r → freshDerived r) ∧
    (∀ (c : ColoTensor) (o : PyVal) (r : ColoTensor),
      ColoTensor.add c o = Except.ok r → freshDerived r) ∧
    (∀ (c : ColoTensor) (s : Int), freshDerived (ColoTensor.truediv c s)) ∧
    (∀ t : TTensor, ColoTensor._filter_outputs_with_colo (PyVal.tensor t) =
      PyVal.colo (ColoTensor.init_from_torch_tensor t true false)) ∧
    (∀ items : List PyVal, ColoTensor._filter_outputs_with_colo (PyVal.tuple items) =
      PyVal.tuple (items.map (fun o =>
        match o with
        | PyVal.tensor u => PyVal.colo (ColoTensor.init_from_torch_tensor u true false)
        | _ => o))) := by
  have hinit : ∀ (t : TTensor) (sp md : Bool),
      freshDerived (ColoTensor.init_from_torch_tensor t sp md) :=
    fun t sp md => ⟨rfl, rfl, rfl⟩
  refine ⟨hinit, fun c k r hok => ?_, fun c o r hok => ?_, fun c s => hinit _ true false,
    fun t => rfl, fun items => rfl⟩
  · unfold ColoTensor.getitem at hok
    cases hidx : ((ColoTensor.torch_tensor c).fst).getIdx k with
    | none => rw [hidx] at hok; exact Except.noConfusion hok
    | some u =>
      rw [hidx] at hok
      rw [← Except.ok.inj hok]
      exact hinit u true false
  · unfold ColoTensor.add at hok
    split at hok
    · split at hok
      · rw [← Except.ok.inj hok]
        exact hinit _ true false
      · exact Except.noConfusion hok
    · split at hok
      · rw [← Except.ok.inj hok]
        exact hinit _ true false
      · exact Except.noConfusion hok
    · exact Except.noConfusion hok

/-- C10, witness: freshness evaluated on concrete derivations from the
concrete sharded tensor (whose own spec and pattern are not inherited). -/
theorem C10_derived_fresh_witness :
    freshDerived (ColoTensor.init_from_torch_tensor fixT4 true false) ∧
    freshDerived (ColoTensor.truediv fixSharded 2) :=
  ⟨C10_derived_fresh.1 fixT4 true false, C10_derived_fresh.2.2.2.1 fixSharded 2⟩
